import Mathlib

/-!
# Verification of the hydrogen server core (src/server.rs)

Shallow embedding of the event-handling core of the `hydrogen` TCP server.
The Rust code performs I/O (epoll, recv, close); each I/O outcome is passed
to the embedded function as an explicit oracle parameter (`RecvResult`,
`regOk`, `closeOk`).  The mutable state (the mutex-guarded master stream
list and the global stats counters) is threaded explicitly, and every
externally visible effect (epoll_ctl calls, libc::close calls, tasks
submitted to the resource pool) is appended to an action log.
-/

namespace Hydrogen

/-- A stream in the master list.  `fd` is `as_raw_fd()`; `tag` is an abstract
identity for the underlying transport (distinct accepted sockets may in
principle carry distinct tags even if a kernel reused an fd value). -/
structure Stream where
  fd : Int
  tag : Nat
deriving DecidableEq, Repr

/-- A task handed to the resource pool via `(*pool).run(...)`.
Payload bytes are modelled as `List Nat` (each entry a byte value).
`emitStats` carries the four raw bytes `payload[2..6]` that the code
reinterprets in place as a host-endian IEEE-754 `f32` time window. -/
inductive Task where
  | deliverMessage (fd : Int) (payload : List Nat)
  | notifyClosed (fd : Int)
  | emitStats (fd : Int) (windowBytes : List Nat)
deriving DecidableEq, Repr

/-- Externally visible effect of the core, in program order. -/
inductive Action where
  | registryInsert (fd : Int)   -- push_back onto the master list
  | registryRemove (fd : Int)   -- removal from the master list (remove_fd_from_list)
  | epollAdd (fd : Int)         -- epoll_ctl(ADD) attempted
  | epollDel (fd : Int)         -- epoll_ctl(DEL) attempted
  | closeCall (fd : Int)        -- libc::close(fd) called
  | submit (t : Task)           -- (*pool).run(...) submission
deriving DecidableEq, Repr

/-- The shared mutable state of the server: the master stream list
(`Arc<Mutex<LinkedList<Stream>>>`), the four global stats counters, and the
log of externally visible actions performed so far. -/
structure SState where
  streams : List Stream
  fdsOpened : Nat
  fdsClosed : Nat
  connRecv : Nat
  connLost : Nat
  log : List Action
deriving DecidableEq, Repr

/-- Result of `stream.recv()`: `ok frames` means recv returned `Ok` and the
subsequent `drain_rx_queue()` yields `frames`; `err` means recv returned
`Err`. -/
inductive RecvResult where
  | ok (frames : List (List Nat))
  | err
deriving DecidableEq, Repr

/-- Value of `event_type::EPOLLIN`. -/
def EPOLLIN : Nat := 1

/-- Value of `event_type::EPOLLET` (bit 31). -/
def EPOLLET : Nat := 2147483648

/-- The registration mask `EVENTS = EPOLLET | EPOLLIN` (server.rs:44). -/
def EVENTS : Nat := EPOLLET ||| EPOLLIN

/-- An epoll event as delivered by `epoll::wait`: `data` holds the fd the
event was registered with, `events` the readiness mask. -/
structure EpollEvent where
  data : Int
  events : Nat
deriving DecidableEq, Repr

/-- The fd-lookup-and-take discipline shared by `handle_epoll_event`
(server.rs:257-281) and `remove_fd_from_list` (server.rs:420-441): walk the
list front to back counting a 1-based index, stop at the first stream whose
`as_raw_fd()` equals `fd`; then `pop_front` (index 1) or
`split_off(index-1)` + `pop_front` + `append`, which removes exactly that
first matching stream and keeps the rest in order.  Returns the removed
stream and the remaining list, or `none` when no stream matches. -/
def removeFirstWithFd : List Stream → Int → Option (Stream × List Stream)
  | [], _ => none
  | s :: rest, fd =>
    if s.fd = fd then
      some (s, rest)
    else
      match removeFirstWithFd rest fd with
      | some (t, rest') => some (t, s :: rest')
      | none => none

/-- Model of `close_fd` (server.rs:447-457): call `libc::close(fd)`; on failure
(`closeOk = false`) log and return *without* touching the counter; on
success increment `fds-closed` via `stats::fd_closed()`. -/
def close_fd (closeOk : Bool) (fd : Int) (st : SState) : SState :=
  let st' := { st with log := st.log ++ [Action.closeCall fd] }
  if closeOk then { st' with fdsClosed := st'.fdsClosed + 1 } else st'

/-- Model of `remove_fd_from_epoll` (server.rs:394-407): `epoll_ctl(DEL)`; any error
is only logged at warn. -/
def remove_fd_from_epoll (fd : Int) (st : SState) : SState :=
  { st with log := st.log ++ [Action.epollDel fd] }

/-- Model of `add_stream_to_master_list` (server.rs:362-373): `push_back` the stream
onto the master list and call `stats::conn_recv()`.  This single function is
both the insert path for new connections (server.rs:190) and the put-back
path after a successful read event (server.rs:285). -/
def add_stream_to_master_list (stream : Stream) (st : SState) : SState :=
  { st with
    streams := st.streams ++ [stream]
    connRecv := st.connRecv + 1
    log := st.log ++ [Action.registryInsert stream.fd] }

/-- Model of `remove_fd_from_list` (server.rs:410-444): find the first stream with
matching fd; if absent, trace and return (no counter change); if present,
remove it and call `stats::conn_lost()`. -/
def remove_fd_from_list (fd : Int) (st : SState) : SState :=
  match removeFirstWithFd st.streams fd with
  | none => st
  | some (_, rest) =>
    { st with
      streams := rest
      connLost := st.connLost + 1
      log := st.log ++ [Action.registryRemove fd] }

/-- Model of `add_to_epoll` (server.rs:376-391): attempt `epoll_ctl(ADD, fd, EVENTS)`
(outcome `regOk`); on failure roll back: `remove_fd_from_list` then
`close_fd`. -/
def add_to_epoll (regOk closeOk : Bool) (fd : Int) (st : SState) : SState :=
  let st' := { st with log := st.log ++ [Action.epollAdd fd] }
  if regOk then st'
  else close_fd closeOk fd (remove_fd_from_list fd st')

/-- The stats-request test in `handle_read_event` (server.rs:314):
`payload.len() == 6 && payload[0] == 0x04 && payload[1] == 0x04`. -/
def isStatsRequest (payload : List Nat) : Bool :=
  payload.length == 6 && payload.headD 0 == 0x04 && (payload.drop 1).headD 0 == 0x04

/-- The frame loop of `handle_read_event` (server.rs:311-341): iterate over
the drained rx queue; a stats-request frame submits one `emit-stats` task
(the worker sends the serialized stats buffer back on a clone of the same
stream) and then `return Ok(())` — leaving the remaining frames of the
batch unprocessed; any other frame submits one `deliver-message` task
invoking `on_data_received` with a clone of the payload. -/
def submitFrames (stream : Stream) (frames : List (List Nat)) (st : SState) : SState :=
  match frames with
  | [] => st
  | payload :: rest =>
    if isStatsRequest payload then
      { st with log := st.log ++ [Action.submit (Task.emitStats stream.fd (payload.drop 2))] }
    else
      submitFrames stream rest
        { st with log := st.log ++ [Action.submit (Task.deliverMessage stream.fd payload)] }

/-- Model of `handle_read_event` (server.rs:308-359).  On `recv()` success, drain the
rx queue and submit tasks (`submitFrames`); return `Ok`.  On `recv()` error:
deregister from epoll, close the fd, submit one `notify-closed` task with
the stream's fd; return `Err`.  The returned `Bool` is `true` for `Ok`. -/
def handle_read_event (closeOk : Bool) (recvRes : RecvResult) (stream : Stream)
    (st : SState) : Bool × SState :=
  match recvRes with
  | RecvResult.ok frames => (true, submitFrames stream frames st)
  | RecvResult.err =>
    let st' := remove_fd_from_epoll stream.fd st
    let st'' := close_fd closeOk stream.fd st'
    (false, { st'' with log := st''.log ++ [Action.submit (Task.notifyClosed stream.fd)] })

/-- Model of `handle_epoll_event` (server.rs:240-300).  Look up and take the stream
for `event.data` from the master list.  If absent: `epoll_ctl(DEL)` and
`close_fd`, then return (defensive ghost-fd cleanup).  If the mask has
`EPOLLIN`: run `handle_read_event`; on `Ok` put the stream back via
`add_stream_to_master_list`, on `Err` drop it.  Otherwise (hang-up/error
only): deregister, close, submit one `notify-closed`, drop the stream. -/
def handle_epoll_event (closeOk : Bool) (recvRes : RecvResult) (event : EpollEvent)
    (st : SState) : SState :=
  match removeFirstWithFd st.streams event.data with
  | none => close_fd closeOk event.data (remove_fd_from_epoll event.data st)
  | some (stream, rest) =>
    let st' := { st with streams := rest }
    if event.events &&& EPOLLIN > 0 then
      match handle_read_event closeOk recvRes stream st' with
      | (true, st'') => add_stream_to_master_list stream st''
      | (false, st'') => st''
    else
      let st'' := close_fd closeOk stream.fd (remove_fd_from_epoll stream.fd st')
      { st'' with log := st''.log ++ [Action.submit (Task.notifyClosed stream.fd)] }

/-- Tail of `handle_new_connection` (server.rs:188-191): once the stream is
built, insert it into the master list, then register the fd with epoll
(rolling back on registration failure inside `add_to_epoll`). -/
def register_new_stream (regOk closeOk : Bool) (stream : Stream) (st : SState) : SState :=
  add_to_epoll regOk closeOk stream.fd (add_stream_to_master_list stream st)

/-- The `deliver-message` payloads submitted for descriptor `fd`, in
submission order, as recorded in an action log. -/
def deliveredPayloads (l : List Action) (fd : Int) : List (List Nat) :=
  l.filterMap fun a =>
    match a with
    | Action.submit (Task.deliverMessage f p) => if f = fd then some p else none
    | _ => none

/-- Number of `libc::close` calls for `fd` recorded in a log. -/
def closeCallCount (l : List Action) (fd : Int) : Nat :=
  (l.filter fun a => a = Action.closeCall fd).length

/-- Number of `notify-closed` task submissions for `fd` recorded in a log. -/
def notifyClosedCount (l : List Action) (fd : Int) : Nat :=
  (l.filter fun a => a = Action.submit (Task.notifyClosed fd)).length

/-- The error sites of server.rs together with their disposition as written
in the code. -/
inductive ErrorSite where
  | epollCreate   -- begin, server.rs:63-68: epoll::create1 failed
  | tcpBind       -- listen, server.rs:98-102: bind or SO_REUSEADDR setup failed
  | acceptErr     -- listen, server.rs:114: a single accept failed
  | socketSetup   -- handle_new_connection, server.rs:159-163: nonblocking/nodelay/keepalive
  | sslAccept     -- handle_new_connection, server.rs:175-179: SslStream::accept failed
  | epollWait     -- event_loop, server.rs:230-233: epoll::wait failed
  | epollCtlAdd   -- add_to_epoll, server.rs:385-390: epoll_ctl(ADD) failed
  | epollCtlDel   -- remove_fd_from_epoll, server.rs:406: epoll_ctl(DEL) failed
  | recvErr       -- handle_read_event, server.rs:344-357: stream.recv() failed
  | closeErr      -- close_fd, server.rs:450-454: libc::close failed
  | unknownFd     -- handle_epoll_event, server.rs:267-272: event fd not in the list
  | mutexPoisoned -- server.rs:250-253, 365-368, 413-416: poisoned StreamList mutex
deriving DecidableEq, Repr

/-- What the code does at an error site. -/
inductive Disposition where
  | panics         -- `panic!` executed on the thread hitting the error
  | threadReturn   -- the thread's function returns, ending that thread
  | localRecovery  -- logged and/or cleaned up; processing continues
deriving DecidableEq, Repr

/-- Disposition of each error site, transcribed from server.rs. -/
def errorDisposition : ErrorSite → Disposition
  | ErrorSite.epollCreate => Disposition.panics        -- error! then panic!
  | ErrorSite.tcpBind => Disposition.threadReturn      -- error! then return
  | ErrorSite.acceptErr => Disposition.localRecovery   -- error!, next iteration
  | ErrorSite.socketSetup => Disposition.localRecovery -- close_fd, return
  | ErrorSite.sslAccept => Disposition.localRecovery   -- error!, close_fd, return
  | ErrorSite.epollWait => Disposition.panics          -- error! then panic!
  | ErrorSite.epollCtlAdd => Disposition.localRecovery -- rollback, close_fd
  | ErrorSite.epollCtlDel => Disposition.localRecovery -- warn! only
  | ErrorSite.recvErr => Disposition.localRecovery     -- deregister, close, notify
  | ErrorSite.closeErr => Disposition.localRecovery    -- error!, skip counter
  | ErrorSite.unknownFd => Disposition.localRecovery   -- deregister, close, continue
  | ErrorSite.mutexPoisoned => Disposition.localRecovery -- warn!, use anyway

/-- The sequence of pool submissions produced by the frame loop of
`handle_read_event` for a given drained rx queue: one `deliver-message` per
leading non-stats frame, then one `emit-stats` and nothing further if a
stats-request frame is reached. -/
def frameTasks (fd : Int) : List (List Nat) → List Action
  | [] => []
  | p :: rest =>
    if isStatsRequest p then [Action.submit (Task.emitStats fd (p.drop 2))]
    else Action.submit (Task.deliverMessage fd p) :: frameTasks fd rest

/-- A concrete one-connection stream used in witnesses. -/
def wStream : Stream := { fd := 7, tag := 0 }

/-- A concrete server state with one registered stream (fd 7). -/
def wState : SState :=
  { streams := [wStream], fdsOpened := 1, fdsClosed := 0,
    connRecv := 1, connLost := 0, log := [] }

/-- The concrete stats-request frame `[0x04, 0x04, 0x00, 0x00, 0x80, 0x3F]`
(window bytes decode to the float 1.0). -/
def statsFrame : List Nat := [4, 4, 0, 0, 128, 63]


/-- A list containing no stream with fd `fd` yields no removal. -/
theorem removeFirstWithFd_eq_none (l : List Stream) (fd : Int)
    (h : ∀ t ∈ l, t.fd ≠ fd) : removeFirstWithFd l fd = none := by
  induction l with
  | nil => rfl
  | cons s rest ih =>
    have hs : s.fd ≠ fd := h s (List.mem_cons_self s rest)
    have hrest := ih (fun t ht => h t (List.mem_cons_of_mem s ht))
    simp [removeFirstWithFd, hs, hrest]

/-- Removing the fd of a freshly appended stream takes exactly that stream
and restores the original list. -/
theorem removeFirstWithFd_append_singleton (l : List Stream) (s : Stream)
    (h : ∀ t ∈ l, t.fd ≠ s.fd) : removeFirstWithFd (l ++ [s]) s.fd = some (s, l) := by
  induction l with
  | nil => simp [removeFirstWithFd]
  | cons u rest ih =>
    have hu : u.fd ≠ s.fd := h u (List.mem_cons_self u rest)
    have hrest := ih (fun t ht => h t (List.mem_cons_of_mem u ht))
    simp [removeFirstWithFd, hu, hrest]

/-- The stream taken by `removeFirstWithFd` carries the requested fd. -/
theorem removeFirstWithFd_fd_eq (l : List Stream) (fd : Int) (s : Stream)
    (rest : List Stream) (h : removeFirstWithFd l fd = some (s, rest)) : s.fd = fd := by
  induction l generalizing s rest with
  | nil => simp [removeFirstWithFd] at h
  | cons u tl ih =>
    by_cases hu : u.fd = fd
    · simp [removeFirstWithFd, hu] at h
      rw [← h.1]
      exact hu
    · simp only [removeFirstWithFd, hu, if_false] at h
      cases hm : removeFirstWithFd tl fd with
      | none => rw [hm] at h; simp at h
      | some p =>
        rw [hm] at h
        obtain ⟨t, rest2⟩ := p
        simp at h
        exact h.1 ▸ ih t rest2 hm

/-- The frame loop only appends pool submissions: the stream list and all
four counters are untouched, and the log grows by `frameTasks`. -/
theorem submitFrames_spec (s : Stream) (frames : List (List Nat)) (st : SState) :
    (submitFrames s frames st).streams = st.streams ∧
    (submitFrames s frames st).fdsOpened = st.fdsOpened ∧
    (submitFrames s frames st).fdsClosed = st.fdsClosed ∧
    (submitFrames s frames st).connRecv = st.connRecv ∧
    (submitFrames s frames st).connLost = st.connLost ∧
    (submitFrames s frames st).log = st.log ++ frameTasks s.fd frames := by
  induction frames generalizing st with
  | nil => simp [submitFrames, frameTasks]
  | cons p rest ih =>
    by_cases hp : isStatsRequest p
    · simp [submitFrames, frameTasks, hp]
    · have := ih { st with log := st.log ++ [Action.submit (Task.deliverMessage s.fd p)] }
      simp [submitFrames, frameTasks, hp] at this ⊢
      simp [this]

/-- Delivered payloads distribute over log concatenation. -/
theorem deliveredPayloads_append (l1 l2 : List Action) (fd : Int) :
    deliveredPayloads (l1 ++ l2) fd = deliveredPayloads l1 fd ++ deliveredPayloads l2 fd := by
  simp [deliveredPayloads, List.filterMap_append]

/-- The deliver-message payloads among the frame-loop submissions are
exactly the drained frames up to the first stats request. -/
theorem deliveredPayloads_frameTasks (fd : Int) (frames : List (List Nat)) :
    deliveredPayloads (frameTasks fd frames) fd
      = frames.takeWhile (fun p => !isStatsRequest p) := by
  induction frames with
  | nil => rfl
  | cons p rest ih =>
    by_cases hp : isStatsRequest p
    · simp [frameTasks, hp, deliveredPayloads, List.takeWhile]
    · simp [frameTasks, hp, deliveredPayloads, List.takeWhile] at ih ⊢
      exact ih

/-- C1: at the failing input — a successful read whose drained rx queue is
`[statsFrame, [1,2,3]]` — the stream is put back into the master list (the
connection stays open), yet no `deliver-message` task and no `notify-closed`
task is ever submitted for the frame `[1,2,3]`: the early `return Ok(())`
after the stats frame silently drops it, contradicting the claim that no
frame is dropped while the connection stays open. -/
theorem c1_frame_dropped_while_open :
    (handle_epoll_event true (RecvResult.ok [statsFrame, [1, 2, 3]])
        { data := 7, events := 1 } wState).streams = [wStream] ∧
    Action.submit (Task.deliverMessage 7 [1, 2, 3])
        ∉ (handle_epoll_event true (RecvResult.ok [statsFrame, [1, 2, 3]])
            { data := 7, events := 1 } wState).log ∧
    Action.submit (Task.notifyClosed 7)
        ∉ (handle_epoll_event true (RecvResult.ok [statsFrame, [1, 2, 3]])
            { data := 7, events := 1 } wState).log := by
  decide

/-- C2: at the failing input — drained rx queue `[statsFrame, [1,2,3]]` —
the read handler submits exactly the single `emit-stats` task for the stats
frame (window bytes `payload[2..6]`) and returns `Ok`; the non-matching
frame `[1,2,3]` is *not* delivered to the user callback, contradicting the
claim that every frame not matching the stats shape is delivered
unchanged. -/
theorem c2_frame_after_stats_not_delivered :
    (handle_read_event true (RecvResult.ok [statsFrame, [1, 2, 3]]) wStream wState).1
        = true ∧
    (handle_read_event true (RecvResult.ok [statsFrame, [1, 2, 3]]) wStream wState).2.log
        = [Action.submit (Task.emitStats 7 [0, 0, 128, 63])] := by
  decide

/-- C3 counterexample: an error returned by `epoll::wait` is answered with
`panic!` in `event_loop` (server.rs:230-233), not with local recovery at the
connection boundary as the claim states. -/
theorem c3_epoll_wait_error_panics :
    errorDisposition ErrorSite.epollWait = Disposition.panics ∧
    Disposition.panics ≠ Disposition.localRecovery := by
  decide

/-- C3 (amended): an error site is recovered locally exactly when it is not
readiness-handle creation, listen-socket setup, or the readiness wait call;
those three end the erring thread (panic for epoll create and epoll wait,
return for listener setup). -/
theorem c3_error_propagation_policy (s : ErrorSite) :
    errorDisposition s = Disposition.localRecovery ↔
      s ≠ ErrorSite.epollCreate ∧ s ≠ ErrorSite.tcpBind ∧ s ≠ ErrorSite.epollWait := by
  cases s <;> decide

/-- C4 counterexample: when `libc::close` fails, `close_fd` returns before
`stats::fd_closed()`, so the fds-closed counter is *not* incremented by that
call of the close path, contrary to the claim. -/
theorem c4_close_failure_skips_counter :
    (close_fd false 5 wState).fdsClosed ≠ wState.fdsClosed + 1 := by
  decide

/-- C4 (amended): every call of `close_fd` invokes `libc::close` exactly
once, and increments the fds-closed counter exactly once when the close
succeeds and not at all when it fails. -/
theorem c4_close_fd_counter_spec (closeOk : Bool) (fd : Int) (st : SState) :
    (close_fd closeOk fd st).fdsClosed
        = (if closeOk then st.fdsClosed + 1 else st.fdsClosed) ∧
    closeCallCount (close_fd closeOk fd st).log fd = closeCallCount st.log fd + 1 := by
  cases closeOk <;> simp [close_fd, closeCallCount, List.filter_append]

/-- C5: for a freshly accepted stream (its fd not yet in the master list),
the stream is inserted into the registry before the epoll registration is
attempted; on registration success the registry has gained exactly that
stream, and on registration failure the insertion is rolled back — the
stream is removed again, the fd is closed, and the registry is exactly as
before the accept. -/
theorem c5_insert_then_register_rollback (closeOk : Bool) (s : Stream) (st : SState)
    (hfresh : ∀ t ∈ st.streams, t.fd ≠ s.fd) :
    (register_new_stream true closeOk s st).streams = st.streams ++ [s] ∧
    (register_new_stream true closeOk s st).log
        = st.log ++ [Action.registryInsert s.fd, Action.epollAdd s.fd] ∧
    (register_new_stream false closeOk s st).streams = st.streams ∧
    (register_new_stream false closeOk s st).log
        = st.log ++ [Action.registryInsert s.fd, Action.epollAdd s.fd,
            Action.registryRemove s.fd, Action.closeCall s.fd] := by
  have hrem := removeFirstWithFd_append_singleton st.streams s hfresh
  cases closeOk <;>
    refine ⟨?_, ?_, ?_, ?_⟩ <;>
      simp [register_new_stream, add_to_epoll, add_stream_to_master_list,
            remove_fd_from_list, close_fd, hrem]

/-- C5 witness at fd 8 against the one-connection state `wState`. -/
theorem c5_insert_then_register_rollback_witness :
    (register_new_stream true true { fd := 8, tag := 1 } wState).streams
        = wState.streams ++ [{ fd := 8, tag := 1 }] ∧
    (register_new_stream true true { fd := 8, tag := 1 } wState).log
        = wState.log ++ [Action.registryInsert 8, Action.epollAdd 8] ∧
    (register_new_stream false true { fd := 8, tag := 1 } wState).streams
        = wState.streams ∧
    (register_new_stream false true { fd := 8, tag := 1 } wState).log
        = wState.log ++ [Action.registryInsert 8, Action.epollAdd 8,
            Action.registryRemove 8, Action.closeCall 8] :=
  c5_insert_then_register_rollback true { fd := 8, tag := 1 } wState (by decide)

/-- C6: a readiness event for a descriptor absent from the master list is
answered by an `epoll_ctl(DEL)` and a `close` for that descriptor, the
registry and the connection counters are untouched, and the handler simply
returns so the loop continues with the next event; no error is
propagated. -/
theorem c6_unknown_fd_cleanup (closeOk : Bool) (recvRes : RecvResult) (ev : EpollEvent)
    (st : SState) (habs : ∀ t ∈ st.streams, t.fd ≠ ev.data) :
    (handle_epoll_event closeOk recvRes ev st).streams = st.streams ∧
    (handle_epoll_event closeOk recvRes ev st).log
        = st.log ++ [Action.epollDel ev.data, Action.closeCall ev.data] ∧
    (handle_epoll_event closeOk recvRes ev st).connRecv = st.connRecv ∧
    (handle_epoll_event closeOk recvRes ev st).connLost = st.connLost := by
  have hnone := removeFirstWithFd_eq_none st.streams ev.data habs
  cases closeOk <;>
    simp [handle_epoll_event, hnone, remove_fd_from_epoll, close_fd]

/-- C6 witness: a readable event for unknown fd 9 against `wState`. -/
theorem c6_unknown_fd_cleanup_witness :
    (handle_epoll_event true (RecvResult.ok []) { data := 9, events := 1 } wState).streams
        = wState.streams ∧
    (handle_epoll_event true (RecvResult.ok []) { data := 9, events := 1 } wState).log
        = wState.log ++ [Action.epollDel 9, Action.closeCall 9] ∧
    (handle_epoll_event true (RecvResult.ok []) { data := 9, events := 1 } wState).connRecv
        = wState.connRecv ∧
    (handle_epoll_event true (RecvResult.ok []) { data := 9, events := 1 } wState).connLost
        = wState.connLost :=
  c6_unknown_fd_cleanup true (RecvResult.ok []) { data := 9, events := 1 } wState (by decide)

/-- C7 counterexample: with drained rx queue `[statsFrame]`, the sequence
of deliver-message payloads submitted for the descriptor is empty, which is
not the same sequence as the frames returned by `drain_rx_queue`. -/
theorem c7_deliver_seq_differs_from_drained :
    deliveredPayloads
        ((handle_read_event true (RecvResult.ok [statsFrame]) wStream wState).2.log) 7
      ≠ [statsFrame] := by
  decide

/-- C7 (amended): for every single descriptor, the deliver-message tasks
submitted during one successful read event are, in order, exactly the
drained frames up to (excluding) the first stats-request frame; that
sequence is a prefix of the drained frames, so submissions happen in
arrival order. -/
theorem c7_deliver_order_and_prefix (closeOk : Bool) (s : Stream)
    (frames : List (List Nat)) (st : SState) :
    deliveredPayloads ((handle_read_event closeOk (RecvResult.ok frames) s st).2.log) s.fd
        = deliveredPayloads st.log s.fd
            ++ frames.takeWhile (fun p => !isStatsRequest p) ∧
    frames.takeWhile (fun p => !isStatsRequest p)
        ++ frames.dropWhile (fun p => !isStatsRequest p) = frames := by
  constructor
  · have h := (submitFrames_spec s frames st).2.2.2.2.2
    simp [handle_read_event, h, deliveredPayloads_append, deliveredPayloads_frameTasks]
  · exact List.takeWhile_append_dropWhile (fun p => !isStatsRequest p) frames

/-- C8: whenever the stream for the event's descriptor is found in the
master list and either the event mask has no readable bit or `recv` fails,
the handler deregisters the descriptor from epoll, calls close on it,
submits exactly one notify-closed task carrying that descriptor, and does
not put the stream back into the master list. -/
theorem c8_error_and_hangup_close_path (closeOk : Bool) (recvRes : RecvResult)
    (ev : EpollEvent) (st : SState) (s : Stream) (rest : List Stream)
    (hfind : removeFirstWithFd st.streams ev.data = some (s, rest))
    (hpath : ev.events &&& EPOLLIN = 0
        ∨ (ev.events &&& EPOLLIN > 0 ∧ recvRes = RecvResult.err)) :
    (handle_epoll_event closeOk recvRes ev st).streams = rest ∧
    (handle_epoll_event closeOk recvRes ev st).log
        = st.log ++ [Action.epollDel s.fd, Action.closeCall s.fd,
            Action.submit (Task.notifyClosed s.fd)] ∧
    notifyClosedCount (handle_epoll_event closeOk recvRes ev st).log s.fd
        = notifyClosedCount st.log s.fd + 1 := by
  have hlog : (handle_epoll_event closeOk recvRes ev st).streams = rest ∧
      (handle_epoll_event closeOk recvRes ev st).log
        = st.log ++ [Action.epollDel s.fd, Action.closeCall s.fd,
            Action.submit (Task.notifyClosed s.fd)] := by
    rcases hpath with hmask | ⟨hmask, hrecv⟩
    · have hmask' : ¬ ev.events &&& EPOLLIN > 0 := by omega
      cases closeOk <;>
        simp [handle_epoll_event, hfind, hmask', remove_fd_from_epoll, close_fd]
    · subst hrecv
      cases closeOk <;>
        simp [handle_epoll_event, hfind, hmask, handle_read_event,
              remove_fd_from_epoll, close_fd]
  refine ⟨hlog.1, hlog.2, ?_⟩
  rw [hlog.2]
  simp [notifyClosedCount, List.filter_append]

/-- C8 witness: a hang-up-only event (mask 16, no EPOLLIN) for fd 7 against
`wState`. -/
theorem c8_error_and_hangup_close_path_witness :
    (handle_epoll_event true (RecvResult.ok []) { data := 7, events := 16 } wState).streams
        = [] ∧
    (handle_epoll_event true (RecvResult.ok []) { data := 7, events := 16 } wState).log
        = wState.log ++ [Action.epollDel 7, Action.closeCall 7,
            Action.submit (Task.notifyClosed 7)] ∧
    notifyClosedCount
        (handle_epoll_event true (RecvResult.ok []) { data := 7, events := 16 } wState).log 7
        = notifyClosedCount wState.log 7 + 1 :=
  c8_error_and_hangup_close_path true (RecvResult.ok []) { data := 7, events := 16 }
    wState wStream [] (by decide) (Or.inl (by decide))

/-- C9: the insert path for new connections and the put-back path after a
successful read event are the same operation, `add_stream_to_master_list`,
and every invocation of it appends the stream and increments the
connections-received counter; consequently `handle_new_connection` (via
`register_new_stream`) increments it once, and each successful read event
increments it again on put-back — the counter counts reinsertions, not
accepted connections. -/
theorem c9_conn_recv_counts_insertions (regOk closeOk : Bool) (s : Stream)
    (st : SState) (frames : List (List Nat)) (ev : EpollEvent) (s2 : Stream)
    (rest : List Stream)
    (hfind : removeFirstWithFd st.streams ev.data = some (s2, rest))
    (hread : ev.events &&& EPOLLIN > 0) :
    (add_stream_to_master_list s st).streams = st.streams ++ [s] ∧
    (add_stream_to_master_list s st).connRecv = st.connRecv + 1 ∧
    (register_new_stream regOk closeOk s st).connRecv = st.connRecv + 1 ∧
    (handle_epoll_event closeOk (RecvResult.ok frames) ev st).connRecv
        = st.connRecv + 1 := by
  refine ⟨rfl, rfl, ?_, ?_⟩
  · cases regOk <;>
      cases closeOk <;>
        simp [register_new_stream, add_to_epoll, add_stream_to_master_list,
              remove_fd_from_list, close_fd] <;>
          cases hm : removeFirstWithFd (st.streams ++ [s]) s.fd <;> simp [hm]
  · have hsf := (submitFrames_spec s2 frames { st with streams := rest }).2.2.2.1
    simp [handle_epoll_event, hfind, hread, handle_read_event,
          add_stream_to_master_list, hsf]

/-- C9 witness: a readable event for fd 7 with one drained frame against
`wState`, plus a fresh insert of fd 8. -/
theorem c9_conn_recv_counts_insertions_witness :
    (add_stream_to_master_list { fd := 8, tag := 1 } wState).streams
        = wState.streams ++ [{ fd := 8, tag := 1 }] ∧
    (add_stream_to_master_list { fd := 8, tag := 1 } wState).connRecv
        = wState.connRecv + 1 ∧
    (register_new_stream true true { fd := 8, tag := 1 } wState).connRecv
        = wState.connRecv + 1 ∧
    (handle_epoll_event true (RecvResult.ok [[1, 2]]) { data := 7, events := 1 } wState).connRecv
        = wState.connRecv + 1 :=
  c9_conn_recv_counts_insertions true true { fd := 8, tag := 1 } wState [[1, 2]]
    { data := 7, events := 1 } wStream [] (by decide) (by decide)

/-- C10: no path of `handle_epoll_event` — in particular neither the
recv-error path nor the hang-up path, both of which drop the stream —
changes the connections-lost counter; the counter is incremented exactly by
`remove_fd_from_list`, whose only caller is the epoll-registration-failure
rollback in `add_to_epoll`, as exercised through `register_new_stream`
with a failing registration (and left untouched when registration
succeeds). -/
theorem c10_conn_lost_only_registration_failure (closeOk : Bool)
    (recvRes : RecvResult) (ev : EpollEvent) (st : SState) (s : Stream)
    (hfresh : ∀ t ∈ st.streams, t.fd ≠ s.fd) :
    (handle_epoll_event closeOk recvRes ev st).connLost = st.connLost ∧
    (register_new_stream false closeOk s st).connLost = st.connLost + 1 ∧
    (register_new_stream true closeOk s st).connLost = st.connLost := by
  refine ⟨?_, ?_, ?_⟩
  · cases hm : removeFirstWithFd st.streams ev.data with
    | none =>
      cases closeOk <;>
        simp [handle_epoll_event, hm, remove_fd_from_epoll, close_fd]
    | some p =>
      obtain ⟨s2, rest⟩ := p
      by_cases hmask : ev.events &&& EPOLLIN > 0
      · cases recvRes with
        | ok frames =>
          have hsf := (submitFrames_spec s2 frames { st with streams := rest }).2.2.2.2.1
          simp [handle_epoll_event, hm, hmask, handle_read_event,
                add_stream_to_master_list, hsf]
        | err =>
          cases closeOk <;>
            simp [handle_epoll_event, hm, hmask, handle_read_event,
                  remove_fd_from_epoll, close_fd]
      · cases closeOk <;>
          simp [handle_epoll_event, hm, hmask, remove_fd_from_epoll, close_fd]
  · have hrem := removeFirstWithFd_append_singleton st.streams s hfresh
    cases closeOk <;>
      simp [register_new_stream, add_to_epoll, add_stream_to_master_list,
            remove_fd_from_list, close_fd, hrem]
  · simp [register_new_stream, add_to_epoll, add_stream_to_master_list]

/-- C10 witness: a recv-error event for fd 7 against `wState`, plus a fresh
registration of fd 8 that fails. -/
theorem c10_conn_lost_only_registration_failure_witness :
    (handle_epoll_event true RecvResult.err { data := 7, events := 1 } wState).connLost
        = wState.connLost ∧
    (register_new_stream false true { fd := 8, tag := 1 } wState).connLost
        = wState.connLost + 1 ∧
    (register_new_stream true true { fd := 8, tag := 1 } wState).connLost
        = wState.connLost :=
  c10_conn_lost_only_registration_failure true RecvResult.err { data := 7, events := 1 }
    wState { fd := 8, tag := 1 } (by decide)

end Hydrogen
